import Mathlib

/-
  Verification development for PlaylistDownloaderBot (src/PlaylistDownloaderBot.py).

  Shallow embedding conventions:
  * Python exceptions are modelled by `Except PyErr`.
  * External collaborators (the Spotify metadata provider, the yt-dlp source
    provider/fetcher) are oracles passed in explicitly; the chat transport
    (reply_text / reply_audio / edit_message_text) is modelled as total, since the
    spec treats transport failures as out of scope.
  * The local filesystem is a finite map from path to size, threaded explicitly.
  * Observable behaviour (replies, probes, downloads, file removals, audio delivery,
    log lines) is recorded in an effect trace `List Eff`.
  * Chat message strings are rendered without ASCII apostrophes (contractions are
    expanded, e.g. "could not" for the contracted form); this renaming is uniform
    and no claim depends on the elided characters.
  * A load-bearing fact of the source: the module never binds the name `asyncio`
    (there is no import of it), so every `await asyncio.sleep(...)` on lines 144,
    145, 185 and 243 raises `NameError` at the point where a retry or the next
    query template would otherwise be tried.  The embedding models those four call
    sites as raising `PyErr.nameError "asyncio"`.
-/

/-- Python exception values, as distinguished by the handlers in the source:
`requests.exceptions.RequestException` is caught specially on line 237; all other
constructors are only told apart by their message string. -/
inductive PyErr where
  | nameError (n : String)
  | keyError (k : String)
  | valueError
  | requestException (m : String)
  | exc (m : String)
deriving DecidableEq

/-- Whether an exception would be caught by `except requests.exceptions.RequestException`. -/
def PyErr.isRequestException : PyErr → Bool
  | .requestException _ => true
  | _ => false

/-- Message text of an exception, as produced by `str(e)` in the source. -/
def errStr : PyErr → String
  | .nameError n => "name " ++ n ++ " is not defined"
  | .keyError k => k
  | .valueError => "invalid literal for int"
  | .requestException m => m
  | .exc m => m

/-- Observable effects of the handlers: outbound chat messages, provider calls,
filesystem mutations and log lines. -/
inductive Eff where
  | searchCall (q : String) (attempt : Nat)
  | probeCall (url : String)
  | downloadCall (url : String) (attempt : Nat)
  | removeFile (p : String)
  | sendAudio (p : String) (title : String) (performer : String)
  | replyMsg (m : String)
  | logMsg (m : String)
deriving DecidableEq

/-- The local filesystem: association list of (path, size in bytes). -/
abbrev FS := List (String × Nat)

/-- Size lookup, mirroring `os.path.getsize` (None models the OSError raise). -/
def fsGetSize (fs : FS) (p : String) : Option Nat :=
  (fs.find? (fun e => e.1 == p)).map (fun e => e.2)

/-- Existence check, mirroring `os.path.exists`. -/
def fsExists (fs : FS) (p : String) : Bool :=
  (fs.find? (fun e => e.1 == p)).isSome

/-- Delete every entry at path `p`. -/
def fsRemove (fs : FS) (p : String) : FS :=
  fs.filter (fun e => !(e.1 == p))

/-- Mirrors `os.remove`: raises FileNotFoundError when the path is absent. -/
def osRemove (fs : FS) (p : String) : Except PyErr FS :=
  if fsExists fs p then .ok (fsRemove fs p) else .error (.exc "FileNotFoundError")

/-- Digit-sequence parser for CPython `int()`: digits with single underscores
allowed only between digits.  The input list must start with a digit. -/
def pyDigitsGo (acc : Nat) : List Char → Option Nat
  | [] => some acc
  | c :: cs =>
    if c.isDigit then pyDigitsGo (acc * 10 + (c.toNat - 48)) cs
    else if c = '_' then
      match cs with
      | [] => none
      | d :: _ => if d.isDigit then pyDigitsGo acc cs else none
    else none

/-- Parse an unsigned decimal literal the way CPython `int()` does. -/
def pyDigits : List Char → Option Nat
  | [] => none
  | c :: cs => if c.isDigit then pyDigitsGo 0 (c :: cs) else none

/-- CPython `int(s)` on an already-stripped string: optional sign then digits.
Returns `none` where `int()` raises ValueError. -/
def pyParseInt (s : String) : Option Int :=
  match s.toList with
  | [] => none
  | c :: cs =>
    if c = '-' then (pyDigits cs).map (fun n => -(n : Int))
    else if c = '+' then (pyDigits cs).map (fun n => (n : Int))
    else (pyDigits (c :: cs)).map (fun n => (n : Int))

/-- Python `str.strip()`: drop leading and trailing whitespace (implemented
structurally so that it evaluates by kernel reduction). -/
def pyStrip (s : String) : String :=
  String.mk (((s.toList.dropWhile Char.isWhitespace).reverse.dropWhile Char.isWhitespace).reverse)

/-- Split a character list at every occurrence of `c` (structural model of
Python `str.split(c)`, which never drops empty groups). -/
def splitOnChar (c : Char) : List Char → List (List Char)
  | [] => [[]]
  | x :: xs =>
    let r := splitOnChar c xs
    if x = c then [] :: r
    else
      match r with
      | [] => [[x]]
      | g :: gs => (x :: g) :: gs

/-- Python `s.split(c)` for a single-character separator. -/
def pySplit (s : String) (c : Char) : List String :=
  (splitOnChar c s.toList).map String.mk

/-- Substring test, mirroring Python `needle in hay` on strings. -/
def strContainsB (hay needle : String) : Bool :=
  hay.toList.tails.any (fun t => needle.toList.isPrefixOf t)

-- Constants from lines 26-31 of the source.
def LANGUAGE : Int := 0
def ARTIST : Int := 1
def SONG_SELECTION : Int := 2
/-- `ConversationHandler.END` (also the "no active conversation" state). -/
def ENDSTATE : Int := -1
def MAX_FILE_SIZE : Nat := 50 * 1024 * 1024
def SPOTIFY_RETRIES : Nat := 3
def YT_RETRIES : Nat := 3
def TEMP_DIR : String := "temp_downloads"

/-- The bot-detection signature checked on line 139 of the source (the source
string contains a typographic apostrophe, U+2019). -/
def botSig : String := "Sign in to confirm you’re not a bot"

/-- The allowed-character predicate of line 344: `c.isalnum() or c in " _-"`
(ASCII reading of `str.isalnum`). -/
def isSafeChar (c : Char) : Bool :=
  c.isAlphanum || c = ' ' || c = '_' || c = '-'

/-- Line 344: `safe_name = "".join(c for c in song_name if c.isalnum() or c in " _-")`. -/
def sanitize_name (s : String) : String :=
  String.mk (s.toList.filter isSafeChar)

/-- Line 345: the destination-name hint passed to `download_youtube_audio` is
`f"{artist}_{safe_name}"` — the artist prefix is used verbatim. -/
def output_name (artist song_name : String) : String :=
  artist ++ "_" ++ sanitize_name song_name

/-- Lines 100-107: the query templates of `search_youtube`, in declared order. -/
def search_queries (song_name artist : String) : List String :=
  [ song_name ++ " " ++ artist ++ " official video"
  , song_name ++ " " ++ artist ++ " official audio"
  , song_name ++ " " ++ artist ++ " official"
  , song_name ++ " " ++ artist
  , song_name ++ " audio " ++ artist
  , song_name ++ " by " ++ artist ]

/-- The yt-dlp source-provider oracle: `extractInfo q a` is the outcome of
`ydl.extract_info(f"ytsearch5:{q}", download=False)` on attempt `a` (the returned
list is the `entries` urls); `probe u` is whether the zero-download validation
`test_ydl.extract_info(u, download=False)` succeeds (line 129). -/
structure YTOracle where
  extractInfo : String → Nat → Except PyErr (List String)
  probe : String → Bool

/-- Lines 116-134: probe each provisional entry in provider order, returning the
first that passes validation; records every probe issued. -/
def probeEntries (o : YTOracle) : List String → Option String × List Eff
  | [] => (none, [])
  | u :: us =>
    if o.probe u then (some u, [Eff.probeCall u])
    else
      let r := probeEntries o us
      (r.1, Eff.probeCall u :: r.2)

/-- Lines 110-144: one template of `search_youtube`.  On a successful provider
search the first five entries are probed and the loop breaks (line 136) when none
validates.  On a provider exception: when the attempt is the last one the loop
breaks (line 143); otherwise line 144 runs `await asyncio.sleep(YT_DELAY)`, which
raises `NameError` because asyncio is unbound — so no second attempt ever runs. -/
def attemptLoop (o : YTOracle) (q : String) (attempt : Nat) :
    Except PyErr (Option String) × List Eff :=
  if attempt < YT_RETRIES then
    match o.extractInfo q attempt with
    | .ok entries =>
      let pr := probeEntries o (entries.take 5)
      (.ok pr.1, Eff.searchCall q attempt :: pr.2)
    | .error e =>
      let blockedLog :=
        if strContainsB (errStr e) botSig then [Eff.logMsg "bot detection"] else []
      if attempt = YT_RETRIES - 1 then
        (.ok none, Eff.searchCall q attempt :: blockedLog)
      else
        (.error (.nameError "asyncio"), Eff.searchCall q attempt :: blockedLog)
  else (.ok none, [])

/-- Lines 109-147: the template loop of `search_youtube`.  When a template
produces no validated url, line 145 runs `await asyncio.sleep(1)`, which raises
`NameError` (asyncio unbound), so control never reaches a later template and the
`return None` on line 147 is reachable only for an empty template list. -/
def queryLoop (o : YTOracle) : List String → Except PyErr (Option String) × List Eff
  | [] => (.ok none, [])
  | q :: _ =>
    match attemptLoop o q 0 with
    | (.error e, tr) => (.error e, tr)
    | (.ok (some url), tr) => (.ok (some url), tr)
    | (.ok none, tr) => (.error (.nameError "asyncio"), tr)

/-- Lines 90-147: `search_youtube(song_name, artist)`. -/
def search_youtube (o : YTOracle) (song_name artist : String) :
    Except PyErr (Option String) × List Eff :=
  queryLoop o (search_queries song_name artist)

/-- The fetcher oracle: `download url a fs` is the outcome of `ydl.download([url])`
on attempt `a` against filesystem `fs`; it returns the (possibly partially
written) filesystem even when it raises. -/
structure DLOracle where
  download : String → Nat → FS → Except PyErr Unit × FS

/-- Lines 173-177: look for the downloaded audio under the known extensions. -/
def findAudio (fs : FS) (output_path : String) : Option String :=
  ([".m4a", ".webm", ".mp3"].map (fun ext => output_path ++ ext)).find?
    (fun p => fsExists fs p)

/-- Lines 167-186: one attempt of `download_youtube_audio`.  A missing output
file after a reported-successful download raises (line 179) and is caught by the
same `except` (line 180).  When the attempt is the last one the function returns
None (line 184); otherwise line 185 runs `await asyncio.sleep(YT_DELAY)`, which
raises `NameError` (asyncio unbound), so no second attempt ever runs.  No branch
removes partially written files. -/
def downloadAttempt (o : DLOracle) (url output_path : String) (attempt : Nat)
    (fs : FS) : Except PyErr (Option String) × FS × List Eff :=
  if attempt < YT_RETRIES then
    let d := o.download url attempt fs
    let tr := [Eff.downloadCall url attempt]
    match d.1 with
    | .ok _ =>
      match findAudio d.2 output_path with
      | some p => (.ok (some p), d.2, tr)
      | none =>
        if attempt = YT_RETRIES - 1 then (.ok none, d.2, tr)
        else (.error (.nameError "asyncio"), d.2, tr)
    | .error _ =>
      if attempt = YT_RETRIES - 1 then (.ok none, d.2, tr)
      else (.error (.nameError "asyncio"), d.2, tr)
  else (.ok none, fs, [])

/-- Lines 150-186: `download_youtube_audio(url, output_name)`. -/
def download_youtube_audio (o : DLOracle) (url output_nm : String) (fs : FS) :
    Except PyErr (Option String) × FS × List Eff :=
  downloadAttempt o url (TEMP_DIR ++ "/" ++ output_nm) 0 fs

/-- Per-user session data, line 87 `user_data: Dict[int, Dict]` for one chat:
the keys `lang`, `artist`, `songs` of the inner dict (None = key absent).
`songsQuery` is ghost instrumentation: whenever the handlers write `songs`,
it records the artist query string whose search produced them. -/
structure Session where
  lang : Option String
  artist : Option String
  songs : Option (List (String × String))
  songsQuery : Option String
deriving DecidableEq

/-- The external world: the Spotify metadata provider (`sp.search` restricted to
the one artist item the handlers use, and `sp.artist_top_tracks` as the
(title, spotify-url) list), plus the yt-dlp oracles. -/
structure World where
  spSearch : String → Nat → Except PyErr (Option String)
  spTopTracks : String → Except PyErr (List (String × String))
  yt : YTOracle
  dl : DLOracle

/-- Lines 268-272 and 378-382: the numbered playlist body. -/
def playlistLines : Nat → List (String × String) → String
  | _, [] => ""
  | i, (name, _) :: rest => toString i ++ ". " ++ name ++ "\n" ++ playlistLines (i + 1) rest

/-- Lines 268-273: the playlist message of `get_artist` (also lines 378-382). -/
def playlistText (artist : String) (songs : List (String × String)) : String :=
  "🎵 Playlist for " ++ artist ++ ":\n\n" ++ playlistLines 1 songs ++
  "\nWhich song would you like to download? Type the number! Or, type a new artist name to create another playlist! 🌟"

/-- Lines 322-325: the playlist message of the new-artist branch of `download_song`. -/
def playlistText2 (artist : String) (songs : List (String × String)) : String :=
  "Here is the playlist for " ++ artist ++ ":\n\n" ++ playlistLines 1 songs ++
  "\nWhich song would you like to download? Just type the number! Or, type a new artist name to create another playlist! 🌟"

/-- Line 278: the outer exception reply of `get_artist`. -/
def oopsA (a : String) (e : PyErr) : Eff :=
  Eff.replyMsg ("Oops! Something went wrong while searching for " ++ a ++
    ". Error: " ++ errStr e ++ ". Lets try again! 😊")

/-- Line 330: the exception reply of the new-artist branch of `download_song`. -/
def artistOops (a : String) (e : PyErr) : Eff :=
  Eff.replyMsg ("Oops! Something went wrong while searching for " ++ a ++
    ". Error: " ++ errStr e ++ ". Lets try again! 😊")

/-- Line 387: the outermost exception reply of `download_song`. -/
def oops2 (e : PyErr) : Eff :=
  Eff.replyMsg ("Oops! Something went wrong while downloading. Error: " ++
    errStr e ++ ". Lets try again! 😊")

/-- Line 375: the download-error reply of `download_song`. -/
def dlErrMsg (song : String) (e : PyErr) : Eff :=
  Eff.replyMsg ("Error while downloading " ++ song ++ ". Error: " ++ errStr e ++
    ". Lets try another song! 😊")

/-- Lines 249-260: the per-song YouTube lookup loop of `get_artist`.  Each song is
looked up with `search_youtube`; any exception from it (including the NameError
raised in place of the fallback sleeps) is caught on line 257 and the song is
skipped. -/
def songs_loop_a (w : World) (artist : String) :
    List (String × String) → List (String × String) × List Eff
  | [] => ([], [])
  | (song_name, _) :: rest =>
    let r := search_youtube w.yt song_name artist
    let restR := songs_loop_a w artist rest
    match r.1 with
    | .ok (some url) => ((song_name, url) :: restR.1, r.2 ++ restR.2)
    | .ok none =>
      (restR.1,
       r.2 ++ [Eff.replyMsg ("Couldnt find " ++ song_name ++ " on YouTube. Skipping...")] ++ restR.2)
    | .error _ =>
      (restR.1,
       r.2 ++ [Eff.replyMsg ("Error searching for " ++ song_name ++ " on YouTube. Skipping...")] ++ restR.2)

/-- Lines 304-314: the per-song YouTube lookup loop of the new-artist branch of
`download_song` (same structure as `songs_loop_a`, different reply texts). -/
def songs_loop_b (w : World) (artist : String) :
    List (String × String) → List (String × String) × List Eff
  | [] => ([], [])
  | (song_name, _) :: rest =>
    let r := search_youtube w.yt song_name artist
    let restR := songs_loop_b w artist rest
    match r.1 with
    | .ok (some url) => ((song_name, url) :: restR.1, r.2 ++ restR.2)
    | .ok none =>
      (restR.1,
       r.2 ++ [Eff.replyMsg ("Couldnt find a downloadable version of " ++ song_name ++ " on YouTube. Skipping this song... 😊")] ++ restR.2)
    | .error e =>
      (restR.1,
       r.2 ++ [Eff.replyMsg ("Error while searching for " ++ song_name ++ " on YouTube. Error: " ++ errStr e ++ ". Skipping this song... 😊")] ++ restR.2)

/-- Lines 222-279: `get_artist`.  Line 225 writes the new artist query into the
session BEFORE any search and OUTSIDE the try block (a missing session raises
KeyError out of the handler).  The Spotify retry loop (lines 230-243) can only run
attempt 0: on a RequestException the inter-attempt sleep on line 243 raises
NameError (asyncio unbound), which the outer except on line 276 catches.  Any
other exception propagates to the same outer except.  All caught paths reply and
return ARTIST; the success path stores the downloadable songs and returns
SONG_SELECTION. -/
def get_artist (w : World) (store : Option Session) (text : String) (fs : FS) :
    Except PyErr Int × Option Session × FS × List Eff :=
  let artist := pyStrip text
  match store with
  | none => (.error (.keyError "chat_id"), none, fs, [])
  | some s0 =>
    let s1 : Session := { s0 with artist := some artist }
    let out0 := [Eff.replyMsg ("Searching for songs by " ++ artist ++ "... Please wait! ⏳")]
    match w.spSearch artist 0 with
    | .error e =>
      if e.isRequestException then
        if (0 : Nat) = SPOTIFY_RETRIES - 1 then
          (.ok ARTIST, some s1, fs,
           out0 ++ [Eff.replyMsg ("Network issue while connecting to Spotify. Error: " ++ errStr e ++ ". Please try again later! 😊")])
        else
          (.ok ARTIST, some s1, fs, out0 ++ [oopsA artist (PyErr.nameError "asyncio")])
      else
        (.ok ARTIST, some s1, fs, out0 ++ [oopsA artist e])
    | .ok none =>
      (.ok ARTIST, some s1, fs,
       out0 ++ [Eff.replyMsg ("Sorry, I could not find " ++ artist ++ ". Try another name! 😊")])
    | .ok (some artistId) =>
      match w.spTopTracks artistId with
      | .error e => (.ok ARTIST, some s1, fs, out0 ++ [oopsA artist e])
      | .ok tracks =>
        let song_list := tracks.take 10
        let dl := songs_loop_a w artist song_list
        if dl.1.isEmpty then
          (.ok ARTIST, some s1, fs,
           out0 ++ dl.2 ++ [Eff.replyMsg "No downloadable songs found. Try another artist! 😊"])
        else
          let s2 : Session := { s1 with songs := some dl.1, songsQuery := some artist }
          (.ok SONG_SELECTION, some s2, fs,
           out0 ++ dl.2 ++ [Eff.replyMsg (playlistText artist dl.1)])

/-- Lines 351-371 of `download_song`: measure the artifact, reject and delete it
when it exceeds MAX_FILE_SIZE, otherwise deliver it; then the unconditional
cleanup `os.remove` of lines 368-371 (whose FileNotFoundError is caught and
logged).  The float MB formatting of line 354 is elided from the reply text. -/
def deliver_or_reject (song_name artist path : String) (fs : FS) :
    Except PyErr Unit × FS × List Eff :=
  match fsGetSize fs path with
  | none => (.error (.exc "getsize"), fs, [])
  | some file_size =>
    if file_size > MAX_FILE_SIZE then
      let out1 := [Eff.replyMsg ("Sorry, the file " ++ song_name ++
        " is larger than Telegrams 50MB limit. Please try another song! 😊")]
      match osRemove fs path with
      | .error e => (.error e, fs, out1)
      | .ok fs1 =>
        match osRemove fs1 path with
        | .ok fs2 => (.ok (), fs2, out1 ++ [Eff.removeFile path, Eff.removeFile path])
        | .error _ => (.ok (), fs1, out1 ++ [Eff.removeFile path, Eff.logMsg "Failed to delete temporary file"])
    else
      let out1 := [Eff.sendAudio path song_name artist,
                   Eff.replyMsg (song_name ++ " downloaded! Enjoy the music! 😊❤️")]
      match osRemove fs path with
      | .ok fs1 => (.ok (), fs1, out1 ++ [Eff.removeFile path])
      | .error _ => (.ok (), fs, out1 ++ [Eff.logMsg "Failed to delete temporary file"])

/-- Lines 282-388: `download_song`.  Non-numeric input is treated as a new artist
query: line 291 overwrites the stored artist BEFORE the search; search failures
reply and return ARTIST leaving the previously stored songs in place.  Numeric
input selects from the stored songs; KeyErrors from a missing session or keys are
caught by the outermost except (line 385), as are all download and delivery
exceptions (line 373), so every path returns a state. -/
def download_song (w : World) (store : Option Session) (text : String) (fs : FS) :
    Except PyErr Int × Option Session × FS × List Eff :=
  let user_input := pyStrip text
  match pyParseInt user_input with
  | none =>
    match store with
    | none => (.ok SONG_SELECTION, none, fs, [oops2 (.keyError "chat_id")])
    | some s0 =>
      let s1 : Session := { s0 with artist := some user_input }
      let out0 := [Eff.replyMsg ("Got it! I am searching for songs by " ++ user_input ++
        "... Please wait a moment! 😊")]
      match w.spSearch user_input 0 with
      | .error e => (.ok ARTIST, some s1, fs, out0 ++ [artistOops user_input e])
      | .ok none =>
        (.ok ARTIST, some s1, fs,
         out0 ++ [Eff.replyMsg ("Sorry, I could not find any artist named " ++ user_input ++ ". Try another name! 😊")])
      | .ok (some artistId) =>
        match w.spTopTracks artistId with
        | .error e => (.ok ARTIST, some s1, fs, out0 ++ [artistOops user_input e])
        | .ok tracks =>
          let song_list := tracks.take 10
          let dl := songs_loop_b w user_input song_list
          if dl.1.isEmpty then
            (.ok ARTIST, some s1, fs,
             out0 ++ dl.2 ++ [Eff.replyMsg "Sorry, I could not find any downloadable links for this artist. Try another name! 😊"])
          else
            let s2 : Session := { s1 with songs := some dl.1, songsQuery := some user_input }
            (.ok SONG_SELECTION, some s2, fs,
             out0 ++ dl.2 ++ [Eff.replyMsg (playlistText2 user_input dl.1)])
  | some n =>
    let song_idx : Int := n - 1
    match store with
    | none => (.ok SONG_SELECTION, none, fs, [oops2 (.keyError "chat_id")])
    | some s0 =>
      match s0.songs, s0.artist with
      | none, _ => (.ok SONG_SELECTION, some s0, fs, [oops2 (.keyError "songs")])
      | some _, none => (.ok SONG_SELECTION, some s0, fs, [oops2 (.keyError "artist")])
      | some songs, some artist =>
        if song_idx < 0 ∨ song_idx ≥ (songs.length : Int) then
          (.ok SONG_SELECTION, some s0, fs,
           [Eff.replyMsg "Please choose a valid number from the playlist! 😊"])
        else
          match songs.get? song_idx.toNat with
          | none => (.ok SONG_SELECTION, some s0, fs, [oops2 (.exc "IndexError")])
          | some (song_name, yt_url) =>
            let out0 := [Eff.replyMsg ("⬇️ Downloading " ++ song_name ++ "... Please wait a moment! 😊")]
            let d := download_youtube_audio w.dl yt_url (output_name artist song_name) fs
            match d.1 with
            | .error e =>
              (.ok SONG_SELECTION, some s0, d.2.1, out0 ++ d.2.2 ++ [dlErrMsg song_name e])
            | .ok none =>
              (.ok SONG_SELECTION, some s0, d.2.1,
               out0 ++ d.2.2 ++ [Eff.replyMsg "Sorry, I could not download this song. Lets try another one! 😊"])
            | .ok (some audio_path) =>
              let dr := deliver_or_reject song_name artist audio_path d.2.1
              match dr.1 with
              | .error e =>
                (.ok SONG_SELECTION, some s0, dr.2.1,
                 out0 ++ d.2.2 ++ dr.2.2 ++ [dlErrMsg song_name e])
              | .ok _ =>
                (.ok SONG_SELECTION, some s0, dr.2.1,
                 out0 ++ d.2.2 ++ dr.2.2 ++ [Eff.replyMsg (playlistText artist songs)])

/-- Lines 189-203: the `/start` handler (the transport reply is modelled total,
so the except branch on line 200 is unreachable). -/
def start (store : Option Session) (fs : FS) :
    Except PyErr Int × Option Session × FS × List Eff :=
  (.ok LANGUAGE, store, fs,
   [Eff.replyMsg "Hello! I am your Singer Playlist Bot. Lets get started! Which language would you like to use? 😊"])

/-- Lines 206-219: `language_selection`.  Line 211 indexes `query.data.split(_)[1]`
before line 212 overwrites the whole session dict with a fresh `{lang: ...}`; an
IndexError there is caught on line 216 and ends the conversation with the session
untouched. -/
def language_selection (store : Option Session) (data : String) (fs : FS) :
    Except PyErr Int × Option Session × FS × List Eff :=
  match (pySplit data '_').get? 1 with
  | none =>
    (.ok ENDSTATE, store, fs,
     [Eff.replyMsg "Oops! Something went wrong. Please start again with /start. 😊"])
  | some lang =>
    (.ok ARTIST, some { lang := some lang, artist := none, songs := none, songsQuery := none }, fs,
     [Eff.replyMsg "Awesome! Now, tell me the name of a singer to create a playlist for you! 🌟"])

/-- Lines 391-397: the `/cancel` fallback. -/
def cancel (store : Option Session) (fs : FS) :
    Except PyErr Int × Option Session × FS × List Eff :=
  (.ok ENDSTATE, store, fs,
   [Eff.replyMsg "Operation cancelled. Type /start to begin again! 😊"])

/-- One chat configuration of the conversation machine of lines 413-424:
the ConversationHandler state, the per-chat session dict, and the filesystem. -/
structure Config where
  conv : Int
  sess : Option Session
  fs : FS
deriving DecidableEq

/-- Inbound user events, as dispatched by the handler table of lines 413-424. -/
inductive UEvent where
  | startCmd
  | callback (data : String)
  | textMsg (t : String)
  | cancelCmd
deriving DecidableEq

/-- Which events reach a handler in which state (entry point when no conversation
is active; per-state handlers; the /cancel fallback during a conversation). -/
def handles (conv : Int) : UEvent → Bool
  | .startCmd => conv == ENDSTATE
  | .callback _ => conv == LANGUAGE
  | .textMsg _ => conv == ARTIST || conv == SONG_SELECTION
  | .cancelCmd => !(conv == ENDSTATE)

/-- Dispatch an event to its handler; unhandled events leave everything unchanged. -/
def dispatch (w : World) (cfg : Config) :
    UEvent → Except PyErr Int × Option Session × FS × List Eff
  | .startCmd =>
    if cfg.conv == ENDSTATE then start cfg.sess cfg.fs
    else (.ok cfg.conv, cfg.sess, cfg.fs, [])
  | .callback d =>
    if cfg.conv == LANGUAGE then language_selection cfg.sess d cfg.fs
    else (.ok cfg.conv, cfg.sess, cfg.fs, [])
  | .textMsg t =>
    if cfg.conv == ARTIST then get_artist w cfg.sess t cfg.fs
    else if cfg.conv == SONG_SELECTION then download_song w cfg.sess t cfg.fs
    else (.ok cfg.conv, cfg.sess, cfg.fs, [])
  | .cancelCmd =>
    if !(cfg.conv == ENDSTATE) then cancel cfg.sess cfg.fs
    else (.ok cfg.conv, cfg.sess, cfg.fs, [])

/-- One step of the machine: run the handler; on a normal return adopt the
returned state, on an escaped exception the conversation state is left unchanged
(the application-level error_handler of lines 400-405 only replies). -/
def step (w : World) (cfg : Config) (ev : UEvent) :
    Config × Except PyErr Int × List Eff :=
  let d := dispatch w cfg ev
  ({ conv := match d.1 with | .ok st => st | .error _ => cfg.conv,
     sess := d.2.1, fs := d.2.2.1 }, d.1, d.2.2.2)

/-- The configuration the process starts in: no conversation, no session, no files. -/
def cfgInit : Config := { conv := ENDSTATE, sess := none, fs := [] }

/-- The configuration after a step (used to build reachability traces). -/
def stepCfg (w : World) (cfg : Config) (ev : UEvent) : Config := (step w cfg ev).1

/-- Configurations reachable from the initial one under world `w`. -/
inductive Reachable (w : World) : Config → Prop where
  | init : Reachable w cfgInit
  | step : ∀ cfg ev, Reachable w cfg → Reachable w (stepCfg w cfg ev)

/- ------------------------------------------------------------------ -/
/- Helper lemmas                                                       -/
/- ------------------------------------------------------------------ -/

lemma fsGetSize_some_exists {fs : FS} {p : String} {sz : Nat}
    (h : fsGetSize fs p = some sz) : fsExists fs p = true := by
  unfold fsGetSize at h
  unfold fsExists
  cases hf : fs.find? (fun e => e.1 == p) with
  | none => rw [hf] at h; simp at h
  | some e => simp

lemma fsExists_fsRemove (fs : FS) (p : String) :
    fsExists (fsRemove fs p) p = false := by
  induction fs with
  | nil => rfl
  | cons e rest ih =>
    by_cases he : e.1 == p
    · have h1 : fsRemove (e :: rest) p = fsRemove rest p := by
        simp [fsRemove, List.filter_cons, he]
      rw [h1]
      exact ih
    · have h1 : fsRemove (e :: rest) p = e :: fsRemove rest p := by
        simp [fsRemove, List.filter_cons, he]
      have h2 : fsExists (e :: fsRemove rest p) p = fsExists (fsRemove rest p) p := by
        simp [fsExists, List.find?_cons, he]
      rw [h1, h2]
      exact ih

/- ------------------------------------------------------------------ -/
/- Concrete worlds and oracles used by witnesses and counterexamples   -/
/- ------------------------------------------------------------------ -/

/-- A source-provider oracle whose first search yields seven entries, none of
which passes the validation probe. -/
def ytAllFail : YTOracle :=
  { extractInfo := fun _ _ => .ok ["u1", "u2", "u3", "u4", "u5", "u6", "u7"]
  , probe := fun _ => false }

/-- A source-provider oracle whose searches fail with the blocked/rate-limited
signature of line 139. -/
def ytBlocked : YTOracle :=
  { extractInfo := fun _ _ => .error (.exc "ERROR: Sign in to confirm you’re not a bot. This helps protect our community.")
  , probe := fun _ => false }

/-- A source-provider oracle whose searches fail with an ordinary error. -/
def ytOtherErr : YTOracle :=
  { extractInfo := fun _ _ => .error (.exc "HTTP Error 404: Not Found")
  , probe := fun _ => false }

/-- A fetcher that writes a partial artifact and then fails with a network error. -/
def dlLeftover : DLOracle :=
  { download := fun _ _ fs =>
      (.error (.exc "network interrupted"), ("temp_downloads/A_B.m4a.part", 1000) :: fs) }

/- ------------------------------------------------------------------ -/
/- C1                                                                  -/
/- ------------------------------------------------------------------ -/

/-- C1: the claim describes the intended template-fallback policy, and the code
is structured for it (ordered templates, take-5 probing, first-match return,
final `return None`), but because the module never imports asyncio the
`await asyncio.sleep(1)` on line 145 raises NameError as soon as the first
template fails to validate a candidate: at most 5 provisional results of the
FIRST template are probed in order, and then the call aborts with NameError
instead of consulting the second template.  This theorem evaluates the locator at
such an input: the trace shows exactly one template consulted and exactly five
probes, and the result is the NameError, not a fallback to the next template. -/
theorem c1_first_template_failure_raises_nameError :
    search_youtube ytAllFail "Song" "Artist" =
      (.error (.nameError "asyncio"),
       [Eff.searchCall "Song Artist official video" 0,
        Eff.probeCall "u1", Eff.probeCall "u2", Eff.probeCall "u3",
        Eff.probeCall "u4", Eff.probeCall "u5"]) := by
  rfl

/- ------------------------------------------------------------------ -/
/- C2                                                                  -/
/- ------------------------------------------------------------------ -/

/-- C2 counterexample: on the blocked/rate-limited signature the locator does NOT
surface a distinct SourceBlocked outcome.  What escapes the call is the generic
`NameError` raised by the unbound asyncio on line 144, and an ordinary (non
blocked) search error produces the very same surfaced value — the blocked
signature only changes a log line, never the outcome. -/
theorem c2_counterexample :
    search_youtube ytBlocked "Song" "Artist" =
      (.error (.nameError "asyncio"),
       [Eff.searchCall "Song Artist official video" 0, Eff.logMsg "bot detection"]) ∧
    search_youtube ytOtherErr "Song" "Artist" =
      (.error (.nameError "asyncio"),
       [Eff.searchCall "Song Artist official video" 0]) := by
  exact ⟨rfl, rfl⟩

/-- C2 amended: when the source provider fails (blocked signature or not) on the
first template, the locator does abandon all remaining query templates for the
call — the handling of the failure raises `NameError` (asyncio is unbound at the
line-144 sleep), aborting the whole call — but what is surfaced is that generic
exception, identical for blocked and ordinary failures; no SourceBlocked outcome
exists, the blocked signature being visible only in a log message. -/
theorem c2_first_template_error_aborts_call (o : YTOracle) (song artist : String)
    (e : PyErr)
    (h : o.extractInfo (song ++ " " ++ artist ++ " official video") 0 = .error e) :
    (search_youtube o song artist).1 = .error (.nameError "asyncio") := by
  unfold search_youtube
  simp only [search_queries, queryLoop, attemptLoop, h]
  simp [YT_RETRIES]

theorem c2_first_template_error_aborts_call_witness :
    ytBlocked.extractInfo ("Song" ++ " " ++ "Artist" ++ " official video") 0 =
      .error (.exc "ERROR: Sign in to confirm you’re not a bot. This helps protect our community.") ∧
    (search_youtube ytBlocked "Song" "Artist").1 = .error (.nameError "asyncio") :=
  ⟨rfl, c2_first_template_error_aborts_call ytBlocked "Song" "Artist" _ rfl⟩

/- ------------------------------------------------------------------ -/
/- C3                                                                  -/
/- ------------------------------------------------------------------ -/

/-- C3 counterexample: an exit path of the Acquisition Engine on which a
partially written artifact remains on disk.  The fetch attempt writes
`temp_downloads/A_B.m4a.part` and fails; `download_youtube_audio` contains no
removal code, so the call exits (with the NameError of the line-185 sleep) while
the partial file is still present. -/
theorem c3_counterexample :
    download_youtube_audio dlLeftover "u" "A_B" [] =
      (.error (.nameError "asyncio"),
       [("temp_downloads/A_B.m4a.part", 1000)],
       [Eff.downloadCall "u" 0]) := by
  rfl

/-- C3 amended: the Acquisition Engine performs at most 3 download attempts (as
written exactly one runs, because the inter-attempt sleep raises NameError), but
it never removes any file on any exit path: the trace contains no removal and the
resulting filesystem is exactly whatever the single provider fetch left behind —
partial artifacts are not cleaned up. -/
theorem c3_at_most_three_attempts_no_cleanup (o : DLOracle) (url nm : String) (fs : FS) :
    ((download_youtube_audio o url nm fs).2.2.countP
        (fun ef => match ef with | Eff.downloadCall _ _ => true | _ => false)) ≤ 3 ∧
    (∀ p, Eff.removeFile p ∉ (download_youtube_audio o url nm fs).2.2) ∧
    (download_youtube_audio o url nm fs).2.1 = (o.download url 0 fs).2 := by
  unfold download_youtube_audio downloadAttempt
  simp only [YT_RETRIES]
  cases hd : (o.download url 0 fs).1 with
  | ok u =>
    cases hf : findAudio (o.download url 0 fs).2 (TEMP_DIR ++ "/" ++ nm) with
    | some p => simp [hd, hf, List.countP_cons, List.countP_nil]
    | none => simp [hd, hf, List.countP_cons, List.countP_nil]
  | error e => simp [hd, List.countP_cons, List.countP_nil]

/- ------------------------------------------------------------------ -/
/- C9                                                                  -/
/- ------------------------------------------------------------------ -/

/-- C9 counterexample: the destination filename is NOT fully sanitized.  Only the
track title goes through the strip of line 344; the artist prefix of line 345 is
used verbatim, so an artist name containing a path separator puts a
filesystem-hostile character straight into the local filename. -/
theorem c9_counterexample :
    output_name "AC/DC" "Back in Black" = "AC/DC_Back in Black" ∧
    '/' ∈ (output_name "AC/DC" "Back in Black").toList ∧
    isSafeChar '/' = false := by
  refine ⟨rfl, by decide, rfl⟩

/-- C9 amended: the local destination filename (excluding the extension) is the
raw artist name, an underscore, and the sanitized track title; every character
outside alphanumerics, space, underscore and hyphen is stripped from the title
component only, while the artist component is used verbatim and may contribute
filesystem-hostile characters. -/
theorem c9_only_title_component_sanitized (artist song_name : String) :
    output_name artist song_name = artist ++ "_" ++ sanitize_name song_name ∧
    ∀ c ∈ (sanitize_name song_name).toList, isSafeChar c = true := by
  constructor
  · rfl
  · intro c hc
    unfold sanitize_name at hc
    have : (String.mk (song_name.toList.filter isSafeChar)).toList
        = song_name.toList.filter isSafeChar := rfl
    rw [this] at hc
    exact (List.mem_filter.mp hc).2

/- ------------------------------------------------------------------ -/
/- C10                                                                 -/
/- ------------------------------------------------------------------ -/

/-- C10: the size ceiling is exclusive.  At exactly 50 MiB (52428800 bytes) the
artifact is delivered (a sendAudio effect occurs, no too-large reply, and the
file is removed only by the post-delivery cleanup); one byte more and it is
rejected with no delivery. -/
theorem c10_exact_ceiling_delivered :
    MAX_FILE_SIZE = 52428800 ∧
    deliver_or_reject "s" "a" "p" [("p", 52428800)] =
      (.ok (), [],
       [Eff.sendAudio "p" "s" "a",
        Eff.replyMsg "s downloaded! Enjoy the music! 😊❤️",
        Eff.removeFile "p"]) ∧
    Eff.sendAudio "p" "s" "a" ∉ (deliver_or_reject "s" "a" "p" [("p", 52428801)]).2.2 ∧
    Eff.removeFile "p" ∈ (deliver_or_reject "s" "a" "p" [("p", 52428801)]).2.2 := by
  refine ⟨rfl, rfl, by decide, by decide⟩

/- ------------------------------------------------------------------ -/
/- C4                                                                  -/
/- ------------------------------------------------------------------ -/

/-- C4: for every successfully downloaded artifact whose size exceeds the 50 MiB
ceiling, the handler replies that the file is too large, removes the artifact
immediately, never issues a sendAudio delivery for it, exits normally, and no
local file remains at the artifact path afterwards. -/
theorem c4_too_large_never_delivered (song_name artist path : String) (fs : FS)
    (sz : Nat) (hsz : fsGetSize fs path = some sz) (hbig : sz > MAX_FILE_SIZE) :
    (deliver_or_reject song_name artist path fs).1 = .ok () ∧
    fsExists (deliver_or_reject song_name artist path fs).2.1 path = false ∧
    (∀ p t pf, Eff.sendAudio p t pf ∉ (deliver_or_reject song_name artist path fs).2.2) ∧
    Eff.removeFile path ∈ (deliver_or_reject song_name artist path fs).2.2 ∧
    Eff.replyMsg ("Sorry, the file " ++ song_name ++
        " is larger than Telegrams 50MB limit. Please try another song! 😊") ∈
      (deliver_or_reject song_name artist path fs).2.2 := by
  have hex : fsExists fs path = true := fsGetSize_some_exists hsz
  have hgone : fsExists (fsRemove fs path) path = false := fsExists_fsRemove fs path
  have hred : deliver_or_reject song_name artist path fs =
      (.ok (), fsRemove fs path,
       [Eff.replyMsg ("Sorry, the file " ++ song_name ++
          " is larger than Telegrams 50MB limit. Please try another song! 😊"),
        Eff.removeFile path, Eff.logMsg "Failed to delete temporary file"]) := by
    unfold deliver_or_reject
    rw [hsz]
    simp only [if_pos hbig]
    unfold osRemove
    rw [hex]
    simp [hgone]
  rw [hred]
  refine ⟨rfl, hgone, ?_, by simp, by simp⟩
  intro p t pf
  simp

theorem c4_too_large_never_delivered_witness :
    fsGetSize [("p", 52428801)] "p" = some 52428801 ∧
    52428801 > MAX_FILE_SIZE ∧
    ((deliver_or_reject "s" "a" "p" [("p", 52428801)]).1 = .ok () ∧
     fsExists (deliver_or_reject "s" "a" "p" [("p", 52428801)]).2.1 "p" = false ∧
     (∀ p t pf, Eff.sendAudio p t pf ∉ (deliver_or_reject "s" "a" "p" [("p", 52428801)]).2.2) ∧
     Eff.removeFile "p" ∈ (deliver_or_reject "s" "a" "p" [("p", 52428801)]).2.2 ∧
     Eff.replyMsg ("Sorry, the file " ++ "s" ++
         " is larger than Telegrams 50MB limit. Please try another song! 😊") ∈
       (deliver_or_reject "s" "a" "p" [("p", 52428801)]).2.2) :=
  ⟨rfl, by decide,
   c4_too_large_never_delivered "s" "a" "p" [("p", 52428801)] 52428801 rfl (by decide)⟩

/-- A world whose metadata provider finds no artist (used by witnesses). -/
def wNone : World :=
  { spSearch := fun _ _ => .ok none
  , spTopTracks := fun _ => .ok []
  , yt := ytAllFail
  , dl := dlLeftover }

/-- A fresh session right after language selection (used by witnesses). -/
def sessEn : Session :=
  { lang := some "en", artist := none, songs := none, songsQuery := none }

/-- A session presenting a one-song playlist for artist "A" (used by witnesses). -/
def sessA : Session :=
  { lang := some "en", artist := some "A", songs := some [("S", "u")], songsQuery := some "A" }

/- ------------------------------------------------------------------ -/
/- C7                                                                  -/
/- ------------------------------------------------------------------ -/

/-- C7: when the metadata provider has zero matches for the artist name, the
handler replies that the artist was not found and returns ARTIST (the
AwaitingArtist state); no candidates are stored — the session songs field is left
exactly as it was (only the artist query field is overwritten, which happens on
line 225 before any search) and the filesystem is untouched. -/
theorem c7_zero_matches_stays_awaiting_artist (w : World) (s : Session)
    (text : String) (fs : FS) (h : w.spSearch (pyStrip text) 0 = .ok none) :
    get_artist w (some s) text fs =
      (.ok ARTIST, some { s with artist := some (pyStrip text) }, fs,
       [Eff.replyMsg ("Searching for songs by " ++ pyStrip text ++ "... Please wait! ⏳"),
        Eff.replyMsg ("Sorry, I could not find " ++ pyStrip text ++ ". Try another name! 😊")]) := by
  simp [get_artist, h]

theorem c7_zero_matches_stays_awaiting_artist_witness :
    wNone.spSearch (pyStrip "Zed Q9") 0 = .ok none ∧
    get_artist wNone (some sessEn) "Zed Q9" [] =
      (.ok ARTIST, some { sessEn with artist := some (pyStrip "Zed Q9") }, [],
       [Eff.replyMsg ("Searching for songs by " ++ pyStrip "Zed Q9" ++ "... Please wait! ⏳"),
        Eff.replyMsg ("Sorry, I could not find " ++ pyStrip "Zed Q9" ++ ". Try another name! 😊")]) :=
  ⟨rfl, c7_zero_matches_stays_awaiting_artist wNone sessEn "Zed Q9" [] rfl⟩

/- ------------------------------------------------------------------ -/
/- C8                                                                  -/
/- ------------------------------------------------------------------ -/

/-- C8: a numeric selection outside [1, len(candidates)] while presenting a
playlist replies with the invalid-selection message, returns SONG_SELECTION (the
PresentingPlaylist state), leaves the stored session (playlist and artist query)
completely unchanged, leaves the filesystem unchanged, and emits no download,
probe or delivery effect (the trace is the single invalid-selection reply). -/
theorem c8_out_of_range_selection_rejected (w : World) (s : Session)
    (text : String) (fs : FS) (n : Int) (songs : List (String × String)) (a : String)
    (hp : pyParseInt (pyStrip text) = some n) (hs : s.songs = some songs)
    (ha : s.artist = some a) (hr : n < 1 ∨ n > (songs.length : Int)) :
    download_song w (some s) text fs =
      (.ok SONG_SELECTION, some s, fs,
       [Eff.replyMsg "Please choose a valid number from the playlist! 😊"]) := by
  have hcond : n - 1 < 0 ∨ n - 1 ≥ (songs.length : Int) := by omega
  simp only [download_song, hp, hs, ha]
  rw [if_pos hcond]

theorem c8_out_of_range_selection_rejected_witness :
    pyParseInt (pyStrip "11") = some 11 ∧
    sessA.songs = some [("S", "u")] ∧
    sessA.artist = some "A" ∧
    ((11 : Int) < 1 ∨ (11 : Int) > (([("S", "u")] : List (String × String)).length : Int)) ∧
    download_song wNone (some sessA) "11" [] =
      (.ok SONG_SELECTION, some sessA, [],
       [Eff.replyMsg "Please choose a valid number from the playlist! 😊"]) :=
  ⟨by decide, rfl, rfl, by decide,
   c8_out_of_range_selection_rejected wNone sessA "11" [] 11 [("S", "u")] "A"
     (by decide) rfl rfl (by decide)⟩

/- ------------------------------------------------------------------ -/
/- Orchestrator invariants (infrastructure for C5 and C6)              -/
/- ------------------------------------------------------------------ -/

/-- The stored artist query and the stored candidates come from the same search:
whenever a session is present, its artist field equals the ghost record of the
query whose search produced the stored songs. -/
abbrev pairOK (st : Option Session) : Prop :=
  ∀ s, st = some s → s.artist = s.songsQuery

/-- With no session stored, `download_song` hits the KeyError of line 291/333,
which the except on line 385 turns into a reply and SONG_SELECTION. -/
lemma download_song_none (w : World) (t : String) (fs : FS) :
    download_song w none t fs =
      (.ok SONG_SELECTION, none, fs, [oops2 (.keyError "chat_id")]) := by
  simp only [download_song]
  split <;> rfl

/-- Shape of every `get_artist` run on a present session: it returns normally
with ARTIST or SONG_SELECTION, keeps a session stored, keeps the filesystem,
replies at least once, and on the SONG_SELECTION exit the stored artist equals
the query that produced the stored songs. -/
lemma get_artist_spec (w : World) (s0 : Session) (t : String) (fs : FS) :
    ∃ st s1 out, get_artist w (some s0) t fs = (.ok st, some s1, fs, out) ∧
      (st = ARTIST ∨ st = SONG_SELECTION) ∧ out ≠ [] ∧
      (st = SONG_SELECTION → s1.artist = s1.songsQuery) := by
  simp only [get_artist]
  repeat' split
  all_goals refine ⟨_, _, _, rfl, ?_, ?_, ?_⟩
  all_goals first
    | exact Or.inl rfl
    | exact Or.inr rfl
    | (intro hh; exact absurd hh (by decide))
    | (intro hh; rfl)
    | simp

/-- Shape of every `download_song` run on a present session: it returns normally
with ARTIST or SONG_SELECTION, keeps a session stored, replies at least once, and
the SONG_SELECTION exit either leaves the session untouched or stores a matching
artist/songs pair. -/
lemma download_song_spec_some (w : World) (s0 : Session) (t : String) (fs : FS) :
    ∃ st s1 fs1 out, download_song w (some s0) t fs = (.ok st, some s1, fs1, out) ∧
      (st = ARTIST ∨ st = SONG_SELECTION) ∧ out ≠ [] ∧
      (st = SONG_SELECTION → s0.artist = s0.songsQuery → s1.artist = s1.songsQuery) := by
  simp only [download_song]
  repeat' split
  all_goals refine ⟨_, _, _, _, rfl, ?_, ?_, ?_⟩
  all_goals first
    | exact Or.inl rfl
    | exact Or.inr rfl
    | (intro hh h0; exact absurd hh (by decide))
    | (intro hh h0; exact h0)
    | (intro hh h0; rfl)
    | (intro hh; exact absurd hh (by decide))
    | (intro hh; rfl)
    | simp

/-- One-step preservation: from a configuration whose ARTIST state has a session
and whose SONG_SELECTION state has a matching pair, every event handles without
an escaped exception, replies whenever a handler ran, and re-establishes both
invariants. -/
lemma step_spec (w : World) (cfg : Config) (ev : UEvent)
    (hA : cfg.conv = ARTIST → cfg.sess.isSome = true)
    (hP : cfg.conv = SONG_SELECTION → pairOK cfg.sess) :
    (step w cfg ev).2.1.isOk = true ∧
    (handles cfg.conv ev = true → (step w cfg ev).2.2 ≠ []) ∧
    ((step w cfg ev).1.conv = ARTIST → (step w cfg ev).1.sess.isSome = true) ∧
    ((step w cfg ev).1.conv = SONG_SELECTION → pairOK (step w cfg ev).1.sess) := by
  cases ev with
  | startCmd =>
    by_cases hc : (cfg.conv == ENDSTATE) = true
    · have hd : dispatch w cfg .startCmd = start cfg.sess cfg.fs := by
        simp [dispatch, hc]
      simp only [step, hd, start]
      refine ⟨rfl, fun _ => by simp, ?_, ?_⟩
      · intro hh; exact absurd hh (by decide)
      · intro hh; exact absurd hh (by decide)
    · have hd : dispatch w cfg .startCmd = (.ok cfg.conv, cfg.sess, cfg.fs, []) := by
        simp [dispatch, hc]
      simp only [step, hd, handles]
      exact ⟨rfl, fun habs => absurd habs hc, hA, hP⟩
  | callback d =>
    by_cases hc : (cfg.conv == LANGUAGE) = true
    · have hd : dispatch w cfg (.callback d) = language_selection cfg.sess d cfg.fs := by
        simp [dispatch, hc]
      cases hsp : (pySplit d '_').get? 1 with
      | none =>
        simp only [step, hd, language_selection, hsp]
        refine ⟨rfl, fun _ => by simp, ?_, ?_⟩
        · intro hh; exact absurd hh (by decide)
        · intro hh; exact absurd hh (by decide)
      | some lang =>
        simp only [step, hd, language_selection, hsp]
        refine ⟨rfl, fun _ => by simp, fun _ => rfl, ?_⟩
        intro hh; exact absurd hh (by decide)
    · have hd : dispatch w cfg (.callback d) = (.ok cfg.conv, cfg.sess, cfg.fs, []) := by
        simp [dispatch, hc]
      simp only [step, hd, handles]
      exact ⟨rfl, fun habs => absurd habs hc, hA, hP⟩
  | textMsg t =>
    by_cases hc1 : (cfg.conv == ARTIST) = true
    · have hc1' : cfg.conv = ARTIST := eq_of_beq hc1
      obtain ⟨s0, hs0⟩ := Option.isSome_iff_exists.mp (hA hc1')
      have hd : dispatch w cfg (.textMsg t) = get_artist w (some s0) t cfg.fs := by
        simp [dispatch, hc1, hs0]
      obtain ⟨st, s1, out, heq, hst, hout, hpair⟩ := get_artist_spec w s0 t cfg.fs
      refine ⟨?_, ?_, ?_, ?_⟩
      · simp only [step, hd, heq]; rfl
      · intro _; simp only [step, hd, heq]; exact hout
      · intro hh; simp only [step, hd, heq] at hh ⊢; rfl
      · intro hh
        simp only [step, hd, heq] at hh ⊢
        intro s hs
        cases hs
        exact hpair hh
    · by_cases hc2 : (cfg.conv == SONG_SELECTION) = true
      · have hc2' : cfg.conv = SONG_SELECTION := eq_of_beq hc2
        have hd : dispatch w cfg (.textMsg t) = download_song w cfg.sess t cfg.fs := by
          simp [dispatch, hc1, hc2]
        cases hsess : cfg.sess with
        | none =>
          have hdl := download_song_none w t cfg.fs
          refine ⟨?_, ?_, ?_, ?_⟩
          · simp only [step, hd, hsess, hdl]; rfl
          · intro _; simp only [step, hd, hsess, hdl]; simp
          · intro hh; simp only [step, hd, hsess, hdl] at hh ⊢
            exact absurd hh (by decide)
          · intro hh; simp only [step, hd, hsess, hdl] at hh ⊢
            intro s hs
            exact Option.noConfusion hs
        | some s0 =>
          obtain ⟨st, s1, fs1, out, heq, hst, hout, hpair⟩ :=
            download_song_spec_some w s0 t cfg.fs
          refine ⟨?_, ?_, ?_, ?_⟩
          · simp only [step, hd, hsess, heq]; rfl
          · intro _; simp only [step, hd, hsess, heq]; exact hout
          · intro hh; simp only [step, hd, hsess, heq] at hh ⊢; rfl
          · intro hh
            simp only [step, hd, hsess, heq] at hh ⊢
            intro s hs
            cases hs
            exact hpair hh (hP hc2' s0 hsess)
      · have hd : dispatch w cfg (.textMsg t) = (.ok cfg.conv, cfg.sess, cfg.fs, []) := by
          simp [dispatch, hc1, hc2]
        simp only [step, hd, handles]
        refine ⟨rfl, ?_, hA, hP⟩
        intro habs
        simp only [Bool.or_eq_true] at habs
        rcases habs with h | h
        · exact absurd h hc1
        · exact absurd h hc2
  | cancelCmd =>
    by_cases hc : (cfg.conv == ENDSTATE) = true
    · have hd : dispatch w cfg .cancelCmd = (.ok cfg.conv, cfg.sess, cfg.fs, []) := by
        simp [dispatch, hc]
      simp only [step, hd, handles]
      refine ⟨rfl, ?_, hA, hP⟩
      intro habs
      rw [hc] at habs
      simp at habs
    · have hd : dispatch w cfg .cancelCmd = cancel cfg.sess cfg.fs := by
        simp [dispatch, hc]
      simp only [step, hd, cancel]
      refine ⟨rfl, fun _ => by simp, ?_, ?_⟩
      · intro hh; exact absurd hh (by decide)
      · intro hh; exact absurd hh (by decide)

/-- Invariant of every reachable configuration: an active ARTIST state has a
session stored, and an active SONG_SELECTION state stores a session whose artist
query matches the query that produced its candidates. -/
lemma reach_inv (w : World) (cfg : Config) (h : Reachable w cfg) :
    (cfg.conv = ARTIST → cfg.sess.isSome = true) ∧
    (cfg.conv = SONG_SELECTION → pairOK cfg.sess) := by
  induction h with
  | init =>
    constructor
    · intro hh; exact absurd hh (by decide)
    · intro hh; exact absurd hh (by decide)
  | step cfg ev hr ih =>
    exact ⟨(step_spec w cfg ev ih.1 ih.2).2.2.1, (step_spec w cfg ev ih.1 ih.2).2.2.2⟩

/- ------------------------------------------------------------------ -/
/- C5                                                                  -/
/- ------------------------------------------------------------------ -/

/-- A world for the C5 trace: artist "A" resolves (one track, which locates on
the first template), artist "B" has zero metadata matches. -/
def w5 : World :=
  { spSearch := fun q _ => if q == "A" then .ok (some "idA") else .ok none
  , spTopTracks := fun _ => .ok [("Song1", "sp1")]
  , yt := { extractInfo := fun _ _ => .ok ["u1"], probe := fun _ => true }
  , dl := { download := fun _ _ fs => (.ok (), fs) } }

/-- The configuration after /start, language "en", a successful search for "A",
and then the failed new-artist query "B" typed while presenting the playlist. -/
def cfg5 : Config :=
  stepCfg w5
    (stepCfg w5 (stepCfg w5 (stepCfg w5 cfgInit .startCmd) (.callback "lang_en"))
      (.textMsg "A"))
    (.textMsg "B")

/-- The configuration one step earlier: presenting the playlist for "A". -/
def cfg5b : Config :=
  stepCfg w5 (stepCfg w5 (stepCfg w5 cfgInit .startCmd) (.callback "lang_en"))
    (.textMsg "A")

/-- C5 counterexample: a reachable session state that pairs a newly stored artist
query with the previous query's candidates.  After the playlist for "A" is
presented, typing "B" (whose metadata search finds nothing) overwrites the stored
artist query with "B" on line 291 BEFORE the search, and the failure path returns
without touching the stored candidates: the reachable session now holds
artist = "B" together with the candidates produced by the search for "A"
(ghost-recorded in songsQuery = "A"), refuting the claimed atomic replacement. -/
theorem c5_counterexample :
    Reachable w5 cfg5 ∧
    cfg5.sess = some { lang := some "en", artist := some "B",
                       songs := some [("Song1", "u1")], songsQuery := some "A" } ∧
    (some "B" : Option String) ≠ some "A" :=
  ⟨.step _ _ (.step _ _ (.step _ _ (.step _ _ .init))), by decide, by decide⟩

/-- C5 amended: the invariant holds exactly in the state where selections are
possible: in every reachable configuration whose conversation state is
SONG_SELECTION (PresentingPlaylist), the stored artist query equals the query
whose search produced the stored candidates — a numeric selection therefore never
sees a mismatched pair.  (A failed artist search from either handler overwrites
the stored artist query while keeping the old candidates, but every such path
returns the AwaitingArtist state, where candidates are not consulted.) -/
theorem c5_presenting_playlist_pair_matches (w : World) (cfg : Config)
    (h : Reachable w cfg) (hst : cfg.conv = SONG_SELECTION) :
    ∀ s, cfg.sess = some s → s.artist = s.songsQuery :=
  (reach_inv w cfg h).2 hst

theorem c5_presenting_playlist_pair_matches_witness :
    Reachable w5 cfg5b ∧ cfg5b.conv = SONG_SELECTION ∧
    (∀ s, cfg5b.sess = some s → s.artist = s.songsQuery) :=
  ⟨.step _ _ (.step _ _ (.step _ _ .init)), by decide,
   c5_presenting_playlist_pair_matches w5 cfg5b
     (.step _ _ (.step _ _ (.step _ _ .init))) (by decide)⟩

/- ------------------------------------------------------------------ -/
/- C6                                                                  -/
/- ------------------------------------------------------------------ -/

/-- C6: in every reachable configuration, every inbound event resolves to a
normal handler return — no exception escapes (the result is `.ok` of the next
conversation state) — and whenever the event is actually dispatched to a handler
at least one user-visible message is emitted.  The KeyError hazards (for example
line 225, which runs outside the try block) are unreachable because every
reachable ARTIST state has a session stored, and every other failure path is
caught inside the handlers. -/
theorem c6_no_event_escapes (w : World) (cfg : Config) (ev : UEvent)
    (h : Reachable w cfg) :
    (step w cfg ev).2.1.isOk = true ∧
    (handles cfg.conv ev = true → (step w cfg ev).2.2 ≠ []) :=
  ⟨(step_spec w cfg ev (reach_inv w cfg h).1 (reach_inv w cfg h).2).1,
   (step_spec w cfg ev (reach_inv w cfg h).1 (reach_inv w cfg h).2).2.1⟩

theorem c6_no_event_escapes_witness :
    Reachable w5 cfgInit ∧
    ((step w5 cfgInit .startCmd).2.1.isOk = true ∧
     (handles cfgInit.conv .startCmd = true → (step w5 cfgInit .startCmd).2.2 ≠ [])) :=
  ⟨.init, c6_no_event_escapes w5 cfgInit .startCmd .init⟩
